import Mathlib

/-!
Shallow embedding of the Breakfast Club planner (src/planned.py and
src/api.py) and proofs about the claims of its specification.

Conventions of the embedding:
* Python `float` arithmetic is modelled exactly over `ℚ`; numeric literals
  such as `0.25` are the exact rationals the source writes.
* Python dicts of the configuration tables and of the computed quantity /
  price / total mappings are modelled as association lists
  `List (String × α)` in the insertion order of the source; `alookup`
  models `dict.get` / `dict[...]` (all actual accesses hit present keys,
  so the `getD` defaults never fire on the program's own data).
* Attendance counts are `ℕ` (the spec's AttendanceForecast fields are
  non-negative integers).
* Python's `round(x, 1)` is modelled as rounding `10·x` to the nearest
  integer (`round1`); it can differ from float banker's rounding only on
  exact ties, which no statement below touches.
-/

/-- Association-list lookup, modelling Python `dict` access
(first entry with the given key wins, as dict keys are unique). -/
def alookup {α : Type} : List (String × α) → String → Option α
  | [], _ => none
  | e :: es, k => if e.1 = k then some e.2 else alookup es k

/-- `SUPERMARKETS` from planned.py (the api.py totals use the same three
store keys in the same order). -/
def SUPERMARKETS : List String := ["Pak\x27nSave", "New World", "Countdown"]

/-- `DEFAULT_PRICES` from planned.py: product → store → NZD unit price. -/
def DEFAULT_PRICES : List (String × List (String × ℚ)) :=
  [("Milk (1 L)", [("Pak\x27nSave", 2.20), ("New World", 2.30), ("Countdown", 2.40)]),
   ("Tea (50 bags)", [("Pak\x27nSave", 6.29), ("New World", 6.49), ("Countdown", 6.59)]),
   ("Bread (unit)", [("Pak\x27nSave", 0.50), ("New World", 0.55), ("Countdown", 0.60)]),
   ("Fruit (unit)", [("Pak\x27nSave", 0.60), ("New World", 0.65), ("Countdown", 0.70)]),
   ("Oats (portion)", [("Pak\x27nSave", 0.80), ("New World", 0.85), ("Countdown", 0.90)]),
   ("Yogurt (cup)", [("Pak\x27nSave", 0.90), ("New World", 0.95), ("Countdown", 1.00)]),
   ("Flour (1 kg)", [("Pak\x27nSave", 2.50), ("New World", 2.70), ("Countdown", 2.80)]),
   ("Eggs (each)", [("Pak\x27nSave", 0.90), ("New World", 1.00), ("Countdown", 1.10)]),
   ("Sugar (1 kg)", [("Pak\x27nSave", 2.80), ("New World", 3.00), ("Countdown", 3.10)]),
   ("Baking powder (100 g)", [("Pak\x27nSave", 2.50), ("New World", 2.70), ("Countdown", 2.90)]),
   ("Butter (250 g)", [("Pak\x27nSave", 5.00), ("New World", 5.50), ("Countdown", 5.80)])]

/-- `PACKS` from planned.py: pack size per product (all 1). -/
def PACKS : List (String × ℕ) :=
  [("Milk (1 L)", 1), ("Tea (50 bags)", 1), ("Bread (unit)", 1), ("Fruit (unit)", 1),
   ("Oats (portion)", 1), ("Yogurt (cup)", 1), ("Flour (1 kg)", 1), ("Eggs (each)", 1),
   ("Sugar (1 kg)", 1), ("Baking powder (100 g)", 1), ("Butter (250 g)", 1)]

/-- `Needs` dataclass from planned.py (attendance forecast). -/
structure Needs where
  mon_children : ℕ
  tue_children : ℕ
  safety_margin : ℚ

/-- `ceil_to_pack(qty, pack_size)` from planned.py:
`int(math.ceil(qty / pack_size))`. -/
def ceil_to_pack (qty : ℚ) (pack_size : ℕ) : ℤ := ⌈qty / (pack_size : ℚ)⌉

/-- The `mon` dict built inside `compute_quantities` (planned.py lines
129-136): per-child base rate 1.0 for milk, bread, fruit, oats, yogurt,
times attendance times `1 + safety_margin`; tea is the literal 1. -/
def compute_mon (needs : Needs) : List (String × ℚ) :=
  let m : ℚ := needs.mon_children
  let margin : ℚ := 1 + needs.safety_margin
  [("Milk (1 L)", 1.0 * m * margin),
   ("Tea (50 bags)", 1),
   ("Bread (unit)", 1.0 * m * margin),
   ("Fruit (unit)", 1.0 * m * margin),
   ("Oats (portion)", 1.0 * m * margin),
   ("Yogurt (cup)", 1.0 * m * margin)]

/-- The `tue` dict built inside `compute_quantities` (planned.py lines
138-144): same rates for milk, fruit, oats, yogurt (no bread); tea is the
literal 1. -/
def compute_tue (needs : Needs) : List (String × ℚ) :=
  let t : ℚ := needs.tue_children
  let margin : ℚ := 1 + needs.safety_margin
  [("Milk (1 L)", 1.0 * t * margin),
   ("Tea (50 bags)", 1),
   ("Fruit (unit)", 1.0 * t * margin),
   ("Oats (portion)", 1.0 * t * margin),
   ("Yogurt (cup)", 1.0 * t * margin)]

/-- The waffle scale factor `scale = (t * margin) / 10.0` of
`compute_quantities` (planned.py line 148). -/
def waffle_scale (needs : Needs) : ℚ :=
  ((needs.tue_children : ℚ) * (1 + needs.safety_margin)) / 10

/-- The `waffles` dict of `compute_quantities` (planned.py lines 149-156):
the per-10-children recipe times the scale factor, in grams/ml/eggs. -/
def compute_waffles (needs : Needs) : List (String × ℚ) :=
  let scale := waffle_scale needs
  [("Flour (1 kg)", 500.0 * scale),
   ("Eggs (each)", 4.0 * scale),
   ("Milk for waffles (ml)", 500.0 * scale),
   ("Sugar (1 kg)", 50.0 * scale),
   ("Baking powder (100 g)", 10.0 * scale),
   ("Butter (250 g)", 50.0 * scale)]

/-- The `totals` dict of `compute_quantities` (planned.py lines 158-181),
before rounding: waffle grams/ml converted to purchase units, waffle milk
merged into the milk litres, bread Monday-only, day sums elsewhere. -/
def quantity_totals (needs : Needs) : List (String × ℚ) :=
  let mon := compute_mon needs
  let tue := compute_tue needs
  let waffles := compute_waffles needs
  let milk_total_L := (alookup mon "Milk (1 L)").getD 0 + (alookup tue "Milk (1 L)").getD 0
      + (alookup waffles "Milk for waffles (ml)").getD 0 / 1000.0
  let flour_kg := (alookup waffles "Flour (1 kg)").getD 0 / 1000.0
  let sugar_kg := (alookup waffles "Sugar (1 kg)").getD 0 / 1000.0
  let bp_packs := (alookup waffles "Baking powder (100 g)").getD 0 / 100.0
  let butter_blocks := (alookup waffles "Butter (250 g)").getD 0 / 250.0
  [("Milk (1 L)", milk_total_L),
   ("Tea (50 bags)", (alookup mon "Tea (50 bags)").getD 0 + (alookup tue "Tea (50 bags)").getD 0),
   ("Bread (unit)", (alookup mon "Bread (unit)").getD 0),
   ("Fruit (unit)", (alookup mon "Fruit (unit)").getD 0 + (alookup tue "Fruit (unit)").getD 0),
   ("Oats (portion)", (alookup mon "Oats (portion)").getD 0 + (alookup tue "Oats (portion)").getD 0),
   ("Yogurt (cup)", (alookup mon "Yogurt (cup)").getD 0 + (alookup tue "Yogurt (cup)").getD 0),
   ("Flour (1 kg)", flour_kg),
   ("Eggs (each)", (alookup waffles "Eggs (each)").getD 0),
   ("Sugar (1 kg)", sugar_kg),
   ("Baking powder (100 g)", bp_packs),
   ("Butter (250 g)", butter_blocks)]

/-- `Quantities` dataclass from planned.py. -/
structure Quantities where
  mon : List (String × ℚ)
  tue : List (String × ℚ)
  waffles : List (String × ℚ)
  rounded : List (String × ℤ)

/-- `compute_quantities(needs)` from planned.py: the per-day dicts, the
waffle detail, and the pack-rounded purchase totals
(`rounded = {k: ceil_to_pack(v, PACKS[k]) for k, v in totals.items()}`). -/
def compute_quantities (needs : Needs) : Quantities :=
  ⟨compute_mon needs, compute_tue needs, compute_waffles needs,
    (quantity_totals needs).map (fun e => (e.1, ceil_to_pack e.2 ((alookup PACKS e.1).getD 1)))⟩

/-- One store's accumulated total in `cost_by_super` (planned.py lines
261-271): the inner `totals[m] += qty * price` accumulation, written as the
sum it computes; a product absent from the price table, or a store absent
from the product's row, is skipped (`continue`), contributing 0. The
source iterates products outer and stores inner into a per-store
accumulator; addition commutes, so the per-store sum is the same value. -/
def store_cost (rounded : List (String × ℤ)) (prices : List (String × List (String × ℚ)))
    (m : String) : ℚ :=
  (rounded.map (fun e =>
    match (alookup prices e.1).bind (fun row => alookup row m) with
    | none => 0
    | some price => (e.2 : ℚ) * price)).sum

/-- `cost_by_super(rounded, prices)` from planned.py: the totals dict
`{m: 0.0 for m in SUPERMARKETS}` after the accumulation loops — one entry
per supermarket, in the fixed store order. -/
def cost_by_super (rounded : List (String × ℤ))
    (prices : List (String × List (String × ℚ))) : List (String × ℚ) :=
  SUPERMARKETS.map (fun m => (m, store_cost rounded prices m))

/-- Python `min(totals, key=totals.get)` as used by `email_draft`
(planned.py line 323) and the CLI, and by `plan` (api.py line 124): scans
the dict entries in insertion order, keeping the first entry and replacing
it only on a strictly smaller value — so ties go to the earliest entry.
`none` models the `ValueError` Python raises on an empty dict. -/
def min_by_total : List (String × ℚ) → Option String
  | [] => none
  | t :: ts => some ((ts.foldl (fun best x => if x.2 < best.2 then x else best) t).1)

/-- The dict assignment `live[product][market] = p` of `prices_for_all`
(planned.py line 245) on one product row: overwrite the market's price,
appending the key if it were absent. -/
def set_price (row : List (String × ℚ)) (m : String) (p : ℚ) : List (String × ℚ) :=
  if (alookup row m).isSome then row.map (fun e => if e.1 = m then (e.1, p) else e)
  else row ++ [(m, p)]

/-- `LivePricer.fetch_price` when `HAS_SCRAPE_DEPS` is false (planned.py
lines 203-204): the guard `if not HAS_SCRAPE_DEPS: return None` makes
every lookup return `None` before any network code runs. -/
def fetch_price_no_deps : String → String → Option ℚ := fun _ _ => none

/-- `LivePricer.prices_for_all` (planned.py lines 236-246), parametrised
by the result of `fetch_price`: start from a copy of `DEFAULT_PRICES` and,
for every product and every market, overwrite the cell whenever the fetch
returns a price (`if p is not None: live[product][market] = p`). -/
def prices_for_all (fetch : String → String → Option ℚ) :
    List (String × List (String × ℚ)) :=
  DEFAULT_PRICES.map (fun e =>
    (e.1, SUPERMARKETS.foldl (fun row m =>
      match fetch m e.1 with
      | none => row
      | some p => set_price row m p) e.2))

/-- `PRICES` from api.py: product → store → NZD unit price (12 products,
including milo). -/
def PRICES : List (String × List (String × ℚ)) :=
  [("milk", [("Pak\x27nSave", 2.20), ("New World", 2.30), ("Countdown", 2.40)]),
   ("tea", [("Pak\x27nSave", 6.29), ("New World", 6.49), ("Countdown", 6.59)]),
   ("bread", [("Pak\x27nSave", 0.50), ("New World", 0.55), ("Countdown", 0.60)]),
   ("fruit", [("Pak\x27nSave", 0.60), ("New World", 0.65), ("Countdown", 0.70)]),
   ("oats", [("Pak\x27nSave", 0.80), ("New World", 0.85), ("Countdown", 0.90)]),
   ("yogurt", [("Pak\x27nSave", 0.90), ("New World", 0.95), ("Countdown", 1.00)]),
   ("flour", [("Pak\x27nSave", 2.50), ("New World", 2.70), ("Countdown", 2.80)]),
   ("eggs", [("Pak\x27nSave", 0.90), ("New World", 1.00), ("Countdown", 1.10)]),
   ("sugar", [("Pak\x27nSave", 2.80), ("New World", 3.00), ("Countdown", 3.10)]),
   ("baking_powder", [("Pak\x27nSave", 2.50), ("New World", 2.70), ("Countdown", 2.90)]),
   ("butter", [("Pak\x27nSave", 5.00), ("New World", 5.50), ("Countdown", 5.80)]),
   ("milo", [("Pak\x27nSave", 7.80), ("New World", 8.20), ("Countdown", 8.40)])]

/-- `WAFFLE_RECIPE` from api.py: amounts per 10 children. -/
def WAFFLE_RECIPE : List (String × ℚ) :=
  [("flour", 500), ("eggs", 4), ("milk", 500), ("sugar", 50), ("baking_powder", 10),
   ("butter", 50)]

/-- `EXPECTED_KCAL_PER_CHILD` from api.py. -/
def EXPECTED_KCAL_PER_CHILD : ℚ := 450

/-- `CALORIES` from api.py: kcal per reporting unit of each food. -/
def CALORIES : List (String × ℚ) :=
  [("milk", 640), ("yogurt", 60), ("cheese", 90), ("chicken", 165), ("bread", 80),
   ("bread_roll", 120), ("hashbrown", 130), ("pancake", 110), ("fruit", 70),
   ("oats", 150), ("cereal", 120), ("butter", 35), ("milo", 120), ("jam", 20),
   ("maple_syrup", 18), ("choc_chips", 50), ("berries", 40)]

/-- The `monday_items` dict of `plan` (api.py lines 86-94) after the
safety-margin multiplication of line 114: per-child rates milk 0.25,
tea 0.02, bread 0.5, fruit 1, oats 1, yogurt 1, milo 0.02, all times
`mon` and then times 1.10. -/
def plan_monday_items (mon : ℕ) : List (String × ℚ) :=
  let safety_margin : ℚ := 1.10
  ([("milk", (mon : ℚ) * 0.25),
    ("tea", (mon : ℚ) * 0.02),
    ("bread", (mon : ℚ) * 0.5),
    ("fruit", (mon : ℚ) * 1),
    ("oats", (mon : ℚ) * 1),
    ("yogurt", (mon : ℚ) * 1),
    ("milo", (mon : ℚ) * 0.02)]).map (fun e => (e.1, e.2 * safety_margin))

/-- The `waffle` dict of `plan` (api.py lines 97-98): the recipe scaled
by `t_factor = tue / 10`. -/
def plan_waffle (tue : ℕ) : List (String × ℚ) :=
  WAFFLE_RECIPE.map (fun e => (e.1, e.2 * ((tue : ℚ) / 10)))

/-- The `tuesday_items` dict of `plan` (api.py lines 99-111) after the
safety-margin multiplication of line 115. -/
def plan_tuesday_items (tue : ℕ) : List (String × ℚ) :=
  let safety_margin : ℚ := 1.10
  let waffle := plan_waffle tue
  ([("milk", (tue : ℚ) * 0.25 + (alookup waffle "milk").getD 0 / 1000),
    ("tea", (tue : ℚ) * 0.02),
    ("fruit", (tue : ℚ) * 1),
    ("oats", (tue : ℚ) * 1),
    ("yogurt", (tue : ℚ) * 1),
    ("flour", (alookup waffle "flour").getD 0 / 1000),
    ("eggs", (alookup waffle "eggs").getD 0),
    ("sugar", (alookup waffle "sugar").getD 0 / 1000),
    ("baking_powder", (alookup waffle "baking_powder").getD 0 / 10),
    ("butter", (alookup waffle "butter").getD 0 / 50),
    ("milo", (tue : ℚ) * 0.02)]).map (fun e => (e.1, e.2 * safety_margin))

/-- Python dict merge `{**a, **b}`: the keys of `a` in order with values
overridden by `b` where shared, then the keys of `b` not in `a`. -/
def dict_merge (a b : List (String × ℚ)) : List (String × ℚ) :=
  a.map (fun e => (e.1, (alookup b e.1).getD e.2))
    ++ b.filter (fun e => (alookup a e.1).isNone)

/-- The `totals` dict of `plan` (api.py lines 118-122): for each store,
sum `PRICES[item][store] * qty` over the items of the MERGED dict
`{**monday_items, **tuesday_items}` (so an item present on both days
contributes only its Tuesday quantity), skipping items not in `PRICES`. -/
def plan_totals (mon tue : ℕ) : List (String × ℚ) :=
  let merged := dict_merge (plan_monday_items mon) (plan_tuesday_items tue)
  SUPERMARKETS.map (fun store =>
    (store, (merged.map (fun e =>
      match alookup PRICES e.1 with
      | none => 0
      | some row => (alookup row store).getD 0 * e.2)).sum))

/-- Modelled from the spec: the per-store total the specification
describes for `/jit/plan` — for each store, the sum over all priced
ingredients of (Monday quantity + Tuesday quantity) × that store's unit
price ("Total per ingredient = Monday amount + Tuesday amount ...
summed across applicable days per ingredient"). Stated for comparison
with `plan_totals`, which implements the source. -/
def spec_plan_totals (mon tue : ℕ) : List (String × ℚ) :=
  SUPERMARKETS.map (fun store =>
    (store, (PRICES.map (fun row =>
      ((alookup (plan_monday_items mon) row.1).getD 0
        + (alookup (plan_tuesday_items tue) row.1).getD 0)
        * (alookup row.2 store).getD 0)).sum))

/-- Python `round(x, 1)`: nearest multiple of 1/10 (see the header note on
tie behaviour). -/
def round1 (q : ℚ) : ℚ := (round (q * 10) : ℤ) / 10

/-- The response of `record_consumption` (api.py lines 168-202), minus the
per-item `details` echo. -/
structure NutritionSummary where
  day : String
  children : ℕ
  expected_total_kcal : ℚ
  actual_total_kcal : ℚ
  average_per_child : ℚ
  percent_of_target : ℚ

/-- The kcal accumulation of `record_consumption` / `generate_report`:
`sum(qty * CALORIES.get(food, 0))` over the items of one day. -/
def items_kcal (items : List (String × ℚ)) : ℚ :=
  (items.map (fun e => e.2 * (alookup CALORIES e.1).getD 0)).sum

/-- `record_consumption(data)` from api.py (the `/jit/consumption`
endpoint), for already-extracted `day`, `children` and `items`:
expected kcal `children × 450`, actual kcal summed over items with
unknown foods worth 0, and the two division-by-zero-guarded ratios,
rounded as the response dict rounds them. -/
def record_consumption (day : String) (children : ℕ) (items : List (String × ℚ)) :
    NutritionSummary :=
  let expected_total_kcal : ℚ := (children : ℚ) * EXPECTED_KCAL_PER_CHILD
  let actual_total_kcal : ℚ := items_kcal items
  let avg_per_child : ℚ := if 0 < children then actual_total_kcal / children else 0
  let percent_of_target : ℚ :=
    if 0 < children then avg_per_child / EXPECTED_KCAL_PER_CHILD * 100 else 0
  ⟨day, children, round1 expected_total_kcal, round1 actual_total_kcal,
    round1 avg_per_child, round1 percent_of_target⟩

/-- One day's entry in the `actual` mapping of the `/jit/report` payload:
`{children, items}` with the same `.get(..., 0)` defaults the source uses. -/
structure DayData where
  children : ℕ
  items : List (String × ℚ)

/-- One day's entry of the `details` dict built by `generate_report`
(api.py lines 240-247), minus the per-item echo. -/
structure DayDetail where
  children : ℕ
  total_kcal : ℚ
  average_per_child : ℚ

/-- The response of `generate_report` (api.py lines 274-284), minus the
rendered `executive_summary` text. -/
structure Report where
  expected_children : ℕ
  actual_children : ℕ
  expected_kcal_total : ℚ
  actual_kcal_total : ℚ
  average_per_child : ℚ
  percent_of_target : ℚ
  details : List (String × DayDetail)

/-- The body of the per-day loop of `generate_report` (api.py lines
224-248): add the day's kcal to the running total and append the day's
detail entry. -/
def report_step (acc : ℚ × List (String × DayDetail)) (e : String × DayData) :
    ℚ × List (String × DayDetail) :=
  let total_day_kcal := items_kcal e.2.items
  (acc.1 + total_day_kcal,
    acc.2 ++ [(e.1,
      ⟨e.2.children, total_day_kcal,
        if 0 < e.2.children then round1 (total_day_kcal / e.2.children) else 0⟩)])

/-- `generate_report(payload)` from api.py (the `/jit/report` endpoint):
`actual_children` reads only the `"monday"` and `"tuesday"` entries
(lines 215-218), while the loop of lines 224-248 walks EVERY day of
`actual`, accumulating `total_real_kcal` and the per-day details. -/
def generate_report (mon tue : ℕ) (actual : List (String × DayData)) : Report :=
  let expected_children := mon + tue
  let actual_children :=
    ((alookup actual "monday").map (fun d => d.children)).getD 0
      + ((alookup actual "tuesday").map (fun d => d.children)).getD 0
  let expected_kcal : ℚ := (expected_children : ℚ) * EXPECTED_KCAL_PER_CHILD
  let acc := actual.foldl report_step (0, [])
  let total_real_kcal := acc.1
  let avg_kcal_per_child : ℚ :=
    if 0 < actual_children then round1 (total_real_kcal / actual_children) else 0
  let percent_of_target : ℚ :=
    if 0 < actual_children then round1 (avg_kcal_per_child / EXPECTED_KCAL_PER_CHILD * 100)
    else 0
  ⟨expected_children, actual_children, expected_kcal, total_real_kcal,
    avg_kcal_per_child, percent_of_target, acc.2⟩

/-! ## Claims -/

/-- C1, counterexample: for the Monday-only forecast `(mon=25, tue=0)`
with safety margin 0.10, `compute_quantities` rounds the tea purchase
quantity to 2 packs, not 1 — the source adds the hard-coded 1-pack tea
entries of both days (`mon["Tea"] + tue["Tea"]`) even when Tuesday has
zero attendance. -/
theorem C1_tea_not_one_pack :
    alookup (compute_quantities ⟨25, 0, 1/10⟩).rounded "Tea (50 bags)" = some 2 ∧
    (2 : ℤ) ≠ 1 := by
  constructor
  · simp [compute_quantities, quantity_totals, compute_mon, compute_tue, compute_waffles,
      waffle_scale, ceil_to_pack, alookup, PACKS]
  · decide

/-- C1, amended: for the Monday-only forecast `(mon=25, tue=0)` with
safety margin 0.10, the rounded tea purchase quantity is exactly 2 packs
(one per planned day, counted regardless of attendance), and every
Tuesday-only waffle-derived item — flour, eggs, sugar, baking powder,
butter — has rounded quantity 0. -/
theorem C1_tea_two_packs_tuesday_items_zero :
    alookup (compute_quantities ⟨25, 0, 1/10⟩).rounded "Tea (50 bags)" = some 2 ∧
    alookup (compute_quantities ⟨25, 0, 1/10⟩).rounded "Flour (1 kg)" = some 0 ∧
    alookup (compute_quantities ⟨25, 0, 1/10⟩).rounded "Eggs (each)" = some 0 ∧
    alookup (compute_quantities ⟨25, 0, 1/10⟩).rounded "Sugar (1 kg)" = some 0 ∧
    alookup (compute_quantities ⟨25, 0, 1/10⟩).rounded "Baking powder (100 g)" = some 0 ∧
    alookup (compute_quantities ⟨25, 0, 1/10⟩).rounded "Butter (250 g)" = some 0 := by
  refine ⟨?_, ?_, ?_, ?_, ?_, ?_⟩ <;>
    simp [compute_quantities, quantity_totals, compute_mon, compute_tue, compute_waffles,
      waffle_scale, ceil_to_pack, alookup, PACKS]

/-- C5: for the forecast `(mon=0, tue=10)` with safety margin 0.10, the
waffle scale factor is exactly 1.10 = 11/10, the flour requirement before
rounding is exactly 0.55 kg = 11/20, and the rounded flour purchase
quantity is 1. -/
theorem C5_waffle_scale_flour :
    waffle_scale ⟨0, 10, 1/10⟩ = 11/10 ∧
    alookup (quantity_totals ⟨0, 10, 1/10⟩) "Flour (1 kg)" = some (11/20) ∧
    alookup (compute_quantities ⟨0, 10, 1/10⟩).rounded "Flour (1 kg)" = some 1 := by
  refine ⟨?_, ?_, ?_⟩
  · simp [waffle_scale]
    norm_num
  · simp [quantity_totals, compute_mon, compute_tue, compute_waffles, waffle_scale, alookup]
    norm_num
  · simp [compute_quantities, quantity_totals, compute_mon, compute_tue, compute_waffles,
      waffle_scale, ceil_to_pack, alookup, PACKS]
    rw [Int.ceil_eq_iff]
    norm_num

/-- C7: when the optional scraping dependency is unavailable every
`fetch_price` call returns `None` (`fetch_price_no_deps`), and
`prices_for_all` then returns a price table equal to `DEFAULT_PRICES`
for every product and store — the pure fallback leaves every default
cell untouched and no exception path exists (the function is total). -/
theorem C7_prices_for_all_default_fallback :
    prices_for_all fetch_price_no_deps = DEFAULT_PRICES := by
  simp [prices_for_all, fetch_price_no_deps, DEFAULT_PRICES, SUPERMARKETS]

/-- C9: for every items mapping, `record_consumption` with `children = 0`
returns `average_per_child = 0` and `percent_of_target = 0` — the
division-by-zero guard takes the `else 0` branches. -/
theorem C9_record_consumption_zero_children (day : String) (items : List (String × ℚ)) :
    (record_consumption day 0 items).average_per_child = 0 ∧
    (record_consumption day 0 items).percent_of_target = 0 := by
  simp [record_consumption, round1]

/-- C4, counterexample: the HTTP `/jit/plan` endpoint does NOT use the
per-child base rate 1.0 with a fixed tea pack — at `mon = 10` its Monday
milk quantity is `10 × 0.25 × 1.10 = 2.75 ≠ 10 × (1 + 0.10) = 11`, and
its Monday tea quantity is `10 × 0.02 × 1.10 = 0.22 ≠ 1`, i.e. tea
depends on attendance. -/
theorem C4_api_rates_differ :
    alookup (plan_monday_items 10) "milk" = some (11/4) ∧
    ((11/4 : ℚ) ≠ (10 : ℚ) * (1 + 1/10)) ∧
    alookup (plan_monday_items 10) "tea" = some (11/50) ∧
    ((11/50 : ℚ) ≠ 1) := by
  refine ⟨?_, by norm_num, ?_, by norm_num⟩ <;>
    simp [plan_monday_items, alookup] <;> norm_num

/-- C4, amended: in the CLI planner's `compute_quantities` (but not in the
HTTP `/jit/plan` endpoint, which uses different per-child rates), for
every forecast the Monday requirement for each of milk, bread, fruit,
oats and yogurt equals `monday_children × (1 + safety_margin)` (per-child
base rate 1.0), and the Monday tea allocation is a fixed one pack
independent of attendance. -/
theorem C4_cli_monday_requirements (m t : ℕ) (margin : ℚ) :
    alookup (compute_quantities ⟨m, t, margin⟩).mon "Milk (1 L)"
      = some ((m : ℚ) * (1 + margin)) ∧
    alookup (compute_quantities ⟨m, t, margin⟩).mon "Bread (unit)"
      = some ((m : ℚ) * (1 + margin)) ∧
    alookup (compute_quantities ⟨m, t, margin⟩).mon "Fruit (unit)"
      = some ((m : ℚ) * (1 + margin)) ∧
    alookup (compute_quantities ⟨m, t, margin⟩).mon "Oats (portion)"
      = some ((m : ℚ) * (1 + margin)) ∧
    alookup (compute_quantities ⟨m, t, margin⟩).mon "Yogurt (cup)"
      = some ((m : ℚ) * (1 + margin)) ∧
    alookup (compute_quantities ⟨m, t, margin⟩).mon "Tea (50 bags)" = some 1 := by
  refine ⟨?_, ?_, ?_, ?_, ?_, ?_⟩ <;>
    simp [compute_quantities, compute_mon, alookup] <;>
    exact Or.inl (by norm_num)

/-- C2: the `/jit/plan` totals are computed over the MERGED dict
`{**monday_items, **tuesday_items}`, so every item served on both days
contributes only its Tuesday quantity. At `mon = 10, tue = 0` the code's
Pak'nSave total is `2.75` (only Monday's bread survives the merge), while
the claimed sum of `(Monday + Tuesday quantity) × unit price` over all
priced ingredients is `37.1998` — the two disagree. -/
theorem C2_merge_drops_monday :
    alookup (plan_totals 10 0) "Pak\x27nSave" = some (11/4) ∧
    alookup (spec_plan_totals 10 0) "Pak\x27nSave" = some (185999/5000) ∧
    ((11/4 : ℚ) ≠ 185999/5000) := by
  refine ⟨?_, ?_, by norm_num⟩
  · simp [plan_totals, dict_merge, plan_monday_items, plan_tuesday_items, plan_waffle,
      WAFFLE_RECIPE, PRICES, SUPERMARKETS, alookup]
    norm_num
  · simp [spec_plan_totals, plan_monday_items, plan_tuesday_items, plan_waffle,
      WAFFLE_RECIPE, PRICES, SUPERMARKETS, alookup]
    norm_num

/-- C6: applied to a CostTotals mapping over the fixed store ordering
Pak'nSave, New World, Countdown with totals `a`, `b`, `c`, the min-by-total
selection returns the first store in that ordering attaining the minimum
(so numerically equal minimal totals go to the store listed first), and
the selected branch's total is `min a (min b c)`. -/
theorem C6_cheapest_min_tie_break (a b c : ℚ) :
    min_by_total [("Pak\x27nSave", a), ("New World", b), ("Countdown", c)] =
      some (if a ≤ b then (if a ≤ c then "Pak\x27nSave" else "Countdown")
            else (if b ≤ c then "New World" else "Countdown")) ∧
    (if a ≤ b then (if a ≤ c then a else c) else (if b ≤ c then b else c))
      = min a (min b c) := by
  constructor
  · simp only [min_by_total, List.foldl]
    split_ifs <;> simp_all <;> linarith
  · simp only [min_def]
    split_ifs <;> simp_all <;> linarith

/-- C10: for every purchase-quantity mapping and every price table —
including tables missing whole products or single store prices —
`cost_by_super` returns a mapping whose key list is exactly the three
fixed stores in order, and each store's total treats an ingredient with
no price for that store as contributing zero (the sum multiplies every
quantity by the looked-up price with default 0), with no error path. -/
theorem C10_cost_by_super_keys_missing_zero (qs : List (String × ℤ))
    (prices : List (String × List (String × ℚ))) :
    (cost_by_super qs prices).map Prod.fst = SUPERMARKETS ∧
    ∀ m : String, store_cost qs prices m =
      (qs.map (fun e =>
        (e.2 : ℚ) * (((alookup prices e.1).bind (fun row => alookup row m)).getD 0))).sum := by
  constructor
  · simp [cost_by_super, SUPERMARKETS]
  · intro m
    induction qs with
    | nil => rfl
    | cons e es ih =>
      simp only [store_cost, List.map_cons, List.sum_cons] at ih ⊢
      rw [ih]
      congr 1
      cases h : (alookup prices e.1).bind (fun row => alookup row m) <;> simp [h]

/-- A successful `alookup` result is an entry of the list. -/
lemma alookup_mem {α : Type} {k : String} {v : α} :
    ∀ {l : List (String × α)}, alookup l k = some v → (k, v) ∈ l := by
  intro l
  induction l with
  | nil => intro h; simp [alookup] at h
  | cons e es ih =>
    intro h
    rw [alookup] at h
    split at h
    · rename_i hk
      have he : e = (k, v) := by
        obtain ⟨k1, v1⟩ := e
        injection h with h2
        simp only [Prod.mk.injEq]
        exact ⟨hk, h2⟩
      exact he ▸ List.mem_cons_self e es
    · exact List.mem_cons_of_mem _ (ih h)

/-- C8: `cost_by_super` is monotonic — for every purchase-quantity
mapping (split as `l1 ++ (k, q) :: l2`) and every price table whose unit
prices are all non-negative, raising the single ingredient entry
`(k, q)` to `(k, q2)` with `q ≤ q2` while holding prices fixed never
decreases any store's total. -/
theorem C8_cost_by_super_monotonic
    (l1 l2 : List (String × ℤ)) (k : String) (q q2 : ℤ)
    (prices : List (String × List (String × ℚ)))
    (hp : ∀ row ∈ prices, ∀ e ∈ row.2, 0 ≤ e.2) (hq : q ≤ q2) :
    ∀ p1 ∈ cost_by_super (l1 ++ (k, q) :: l2) prices,
      ∀ p2 ∈ cost_by_super (l1 ++ (k, q2) :: l2) prices,
        p1.1 = p2.1 → p1.2 ≤ p2.2 := by
  intro p1 h1 p2 h2 hkey
  simp only [cost_by_super, List.mem_map] at h1 h2
  obtain ⟨m1, _, rfl⟩ := h1
  obtain ⟨m2, _, rfl⟩ := h2
  have hm : m1 = m2 := hkey
  subst hm
  show store_cost (l1 ++ (k, q) :: l2) prices m1 ≤ store_cost (l1 ++ (k, q2) :: l2) prices m1
  simp only [store_cost, List.map_append, List.sum_append, List.map_cons, List.sum_cons]
  have hmid : (match (alookup prices k).bind (fun row => alookup row m1) with
        | none => (0 : ℚ) | some price => (q : ℚ) * price)
      ≤ (match (alookup prices k).bind (fun row => alookup row m1) with
        | none => (0 : ℚ) | some price => (q2 : ℚ) * price) := by
    cases hrow : alookup prices k with
    | none => simp
    | some row =>
      cases hpr : alookup row m1 with
      | none => simp [hpr]
      | some price =>
        have h0 : 0 ≤ price := hp (k, row) (alookup_mem hrow) (m1, price) (alookup_mem hpr)
        simp only [Option.some_bind, hpr]
        exact mul_le_mul_of_nonneg_right (by exact_mod_cast hq) h0
  linarith

/-- A key absent from the key list looks up to `none`. -/
lemma alookup_eq_none {α : Type} {k : String} :
    ∀ {l : List (String × α)}, k ∉ l.map Prod.fst → alookup l k = none := by
  intro l
  induction l with
  | nil => intro _; rfl
  | cons e es ih =>
    intro h
    rw [alookup, if_neg, ih (fun hm => h (List.mem_cons_of_mem _ hm))]
    intro hk
    exact h (hk ▸ List.mem_cons_self _ _)

/-- The kcal accumulator of `generate_report` computes the sum of the
per-day kcal totals over every day of the payload. -/
lemma report_fold_total (l : List (String × DayData)) :
    ∀ (t : ℚ) (ds : List (String × DayDetail)),
      (l.foldl report_step (t, ds)).1 = t + (l.map (fun e => items_kcal e.2.items)).sum := by
  induction l with
  | nil => intro t ds; simp
  | cons e es ih =>
    intro t ds
    simp only [List.foldl_cons, List.map_cons, List.sum_cons, report_step]
    rw [ih]
    ring

/-- With distinct day keys, the monday-plus-tuesday lookup sum equals the
children sum over the entries whose key is monday or tuesday. -/
lemma children_lookup_filter :
    ∀ {l : List (String × DayData)}, (l.map Prod.fst).Nodup →
      ((alookup l "monday").map (fun d => d.children)).getD 0
        + ((alookup l "tuesday").map (fun d => d.children)).getD 0
      = ((l.filter (fun e => e.1 == "monday" || e.1 == "tuesday")).map
          (fun e => e.2.children)).sum := by
  intro l
  induction l with
  | nil => intro _; rfl
  | cons e es ih =>
    intro h
    simp only [List.map_cons, List.nodup_cons] at h
    obtain ⟨hnotin, hnd⟩ := h
    have ihs := ih hnd
    by_cases hm : e.1 = "monday"
    · have h1 : alookup es "monday" = none := alookup_eq_none (hm ▸ hnotin)
      rw [h1] at ihs
      simp only [Option.map_none', Option.getD_none, zero_add] at ihs
      simp [alookup, hm, ihs]
    · by_cases ht : e.1 = "tuesday"
      · have h1 : alookup es "tuesday" = none := alookup_eq_none (ht ▸ hnotin)
        rw [h1] at ihs
        simp only [Option.map_none', Option.getD_none, add_zero] at ihs
        simp [alookup, ht, hm, ihs]
        omega
      · simp [alookup, hm, ht, ihs]

/-- C3, counterexample: for the payload `actual = {"wednesday":
{children: 5, items: {}}}`, `generate_report` returns `actual_children =
0`, while the sum of children over every day present in the mapping is 5
— days other than monday and tuesday are ignored by `actual_children`. -/
theorem C3_other_day_children_ignored :
    (generate_report 0 0 [("wednesday", ⟨5, []⟩)]).actual_children = 0 ∧
    ([(("wednesday", ⟨5, []⟩) : String × DayData)].map (fun e => e.2.children)).sum = 5 ∧
    (0 : ℕ) ≠ 5 := by
  refine ⟨?_, by simp, by decide⟩
  simp [generate_report, alookup]

/-- C3, amended: for every payload whose day keys are distinct,
`generate_report` returns `actual_children` equal to the sum of the
children counts of the `"monday"` and `"tuesday"` entries only (other day
keys are ignored), while `actual_kcal_total` sums every present day's
total kcal (quantity × kcal-each over its items, unknown foods worth 0). -/
theorem C3_children_mon_tue_kcal_all_days (mon tue : ℕ)
    (actual : List (String × DayData)) (hnd : (actual.map Prod.fst).Nodup) :
    (generate_report mon tue actual).actual_children
      = ((actual.filter (fun e => e.1 == "monday" || e.1 == "tuesday")).map
          (fun e => e.2.children)).sum ∧
    (generate_report mon tue actual).actual_kcal_total
      = (actual.map (fun e => items_kcal e.2.items)).sum := by
  constructor
  · show ((alookup actual "monday").map (fun d => d.children)).getD 0
        + ((alookup actual "tuesday").map (fun d => d.children)).getD 0 = _
    exact children_lookup_filter hnd
  · show (actual.foldl report_step (0, [])).1 = _
    rw [report_fold_total]
    ring

/-- C3 witness: the amended theorem applied to a concrete payload with a
monday entry and a friday entry. -/
theorem C3_children_mon_tue_kcal_all_days_witness :
    (([(("monday", ⟨3, [("milk", 2)]⟩) : String × DayData),
       ("friday", ⟨4, [("bread", 1)]⟩)].map Prod.fst).Nodup) ∧
    ((generate_report 1 2 [("monday", ⟨3, [("milk", 2)]⟩), ("friday", ⟨4, [("bread", 1)]⟩)]).actual_children
      = (([(("monday", ⟨3, [("milk", 2)]⟩) : String × DayData),
           ("friday", ⟨4, [("bread", 1)]⟩)].filter
            (fun e => e.1 == "monday" || e.1 == "tuesday")).map
          (fun e => e.2.children)).sum ∧
     (generate_report 1 2 [("monday", ⟨3, [("milk", 2)]⟩), ("friday", ⟨4, [("bread", 1)]⟩)]).actual_kcal_total
      = ([(("monday", ⟨3, [("milk", 2)]⟩) : String × DayData),
          ("friday", ⟨4, [("bread", 1)]⟩)].map (fun e => items_kcal e.2.items)).sum) :=
  ⟨by simp, C3_children_mon_tue_kcal_all_days 1 2 _ (by simp)⟩

/-- C8 witness: the monotonicity theorem applied to the purchase list
`{"milk": 1}` raised to `{"milk": 3}` against a one-product price table. -/
theorem C8_cost_by_super_monotonic_witness :
    (∀ row ∈ [(("milk", [("Pak\x27nSave", (2 : ℚ))]) : String × List (String × ℚ))],
      ∀ e ∈ row.2, (0 : ℚ) ≤ e.2) ∧
    (1 : ℤ) ≤ 3 ∧
    (∀ p1 ∈ cost_by_super ([] ++ ("milk", (1 : ℤ)) :: []) [("milk", [("Pak\x27nSave", (2 : ℚ))])],
      ∀ p2 ∈ cost_by_super ([] ++ ("milk", (3 : ℤ)) :: []) [("milk", [("Pak\x27nSave", (2 : ℚ))])],
        p1.1 = p2.1 → p1.2 ≤ p2.2) :=
  ⟨by norm_num, by norm_num,
    C8_cost_by_super_monotonic [] [] "milk" 1 3 _ (by norm_num) (by norm_num)⟩
